import Mathlib

/-!
Credential resolution and client construction of `pkg/aws`.

A shallow embedding of `pkg/aws/awsclient.go` (`NewClient`, `newAwsClientConfig`) together
with the three helpers exercised by `pkg/aws/credentials_test.go`
(`getCredentialsFromEnv`, `getCredentialsFromVault`, `guessAccountName`).

Remote collaborators (the account query, the secret client, the SDK configuration loader)
are passed in as functions; every call made on the account query or on the secret client
is recorded, in order, in the `calls` of a `Run`.
-/

namespace Aws

/-! ## Data model -/

/-- The process environment: `none` for a variable that is not set. -/
abbrev Env := String → Option String

/-- Go's `len` on a string: its length in bytes. -/
def len (s : String) : Nat := s.utf8ByteSize

/-- A dynamically typed value held in a `map[string]interface{}`: a string, or a value of
any other dynamic type (number, boolean, nested map, JSON null), told apart by a tag. -/
inductive GoValue where
  | str (s : String)
  | other (tag : Nat)
  deriving DecidableEq, Repr

/-- The secret returned by the secret client: `Data` is a Go map, `none` for a missing key. -/
structure Secret where
  Data : String → Option GoValue

/-- The single-value type assertion `m[k].(string)` on a map lookup: `none` stands for the
run-time panic raised for a missing key (nil interface) or a non-string value. -/
def assertString : Option GoValue → Option String
  | some (.str s) => some s
  | some (.other _) => none
  | none => none

/-- The `automationToken` descriptor of the `getAccounts` query. -/
structure VaultSecret_v1 where
  Path : String
  Field : String
  Version : Option Int
  Format : Option String
  deriving DecidableEq, Repr

/-- Getter `GetPath` of the automation token. -/
def VaultSecret_v1.GetPath (t : VaultSecret_v1) : String := t.Path

/-- One record of `awsaccounts_v1` in the `getAccounts` query. -/
structure AWSAccount_v1 where
  Name : String
  ResourcesDefaultRegion : String
  AutomationToken : VaultSecret_v1
  deriving DecidableEq, Repr

/-- The response of the `getAccounts` query. -/
structure getAccountsResponse where
  Awsaccounts_v1 : List AWSAccount_v1
  deriving DecidableEq, Repr

/-- Getter `GetAwsaccounts_v1` of the query response. -/
def getAccountsResponse.GetAwsaccounts_v1 (r : getAccountsResponse) : List AWSAccount_v1 :=
  r.Awsaccounts_v1

/-- The account-query service `getAccounts(ctx, name)`: a response or an error text. -/
abbrev AccountQuery := String → Except String getAccountsResponse

/-- The behaviour of a secret client: `ReadSecret(path)` gives a secret or an error text. -/
abbrev VaultClient := String → Except String Secret

/-- A remote call, as recorded in the order it is made. -/
inductive Event where
  | getAccounts (name : String)
  | ReadSecret (path : String)
  deriving DecidableEq, Repr

/-- The paths of the `ReadSecret` calls of a call sequence, in order. -/
def secretCalls : List Event → List String
  | [] => []
  | .ReadSecret p :: es => p :: secretCalls es
  | .getAccounts _ :: es => secretCalls es

/-- The names of the account queries of a call sequence, in order. -/
def queryCalls : List Event → List String
  | [] => []
  | .getAccounts n :: es => n :: queryCalls es
  | .ReadSecret _ :: es => queryCalls es

/-- How a function ends: it returns a value, the process is terminated by
`util.Log().Fatalw` with the given message, or the Go run time panics. -/
inductive Outcome (α : Type) where
  | returned (a : α)
  | fatal (msg : String)
  | panic (msg : String)
  deriving DecidableEq, Repr

/-- The end of a run together with the remote calls it made, oldest first. -/
structure Run (α : Type) where
  outcome : Outcome α
  calls : List Event
  deriving DecidableEq, Repr

/-- An access-key-id / secret-access-key pair. -/
structure Credentials where
  AccessKeyID : String
  SecretAccessKey : String
  deriving DecidableEq, Repr

/-- The arguments of `credentials.NewStaticCredentialsProvider(key, secret, session)`. -/
structure StaticCredentialsProvider where
  AccessKeyID : String
  SecretAccessKey : String
  SessionToken : String
  deriving DecidableEq, Repr

/-- The options handed to `config.LoadDefaultConfig`: `WithRegion` and
`WithCredentialsProvider`. -/
structure LoadOptions where
  Region : String
  Credentials : StaticCredentialsProvider
  deriving DecidableEq, Repr

/-- The SDK configuration loader seen from this package. It reads the process environment
(profile, shared configuration, default region) besides the options it is given, and
either reports an error text or succeeds. -/
abbrev SdkLoader := Env → LoadOptions → Option String

/-- `config.LoadDefaultConfig(ctx, WithRegion(..), WithCredentialsProvider(..))`: whether
it succeeds is up to the loader, which sees the environment; what is kept of a success is
the explicit options that were handed to it. -/
def LoadDefaultConfig (sdk : SdkLoader) (env : Env) (opts : LoadOptions) :
    Except String LoadOptions :=
  match sdk env opts with
  | some e => .error e
  | none => .ok opts

/-- The wrapper object around the S3 client, `s3.NewFromConfig(cfg)`: it records the
options that were handed to the loader, not the region the SDK may resolve on its own. -/
structure awsClient where
  s3Client : LoadOptions
  deriving DecidableEq, Repr

/-- The configuration struct of the client. -/
structure awsClientConfig where
  Region : String
  deriving DecidableEq, Repr

/-! ## Layered configuration -/

/-- The value stored under a key of the `aws` configuration section. -/
inductive ViperValue where
  | unset
  | str (s : String)
  | undecodable (why : String)
  deriving DecidableEq, Repr

/-- The `aws` section of the process-wide configuration, as far as `awsClientConfig`
reads it. -/
structure ViperSub where
  region : ViperValue
  deriving DecidableEq, Repr

/-- Modelled from the spec: the layered configuration library behind
`util.EnsureViperSub`, `BindEnv` and `Unmarshal` is not part of the sources. The region is
loaded from layered configuration (explicit config, environment variable override): a
non-empty `AWS_REGION` overrides the configured value (an empty one counts as not set),
an unset key leaves the zero value `""`, and a value that cannot be decoded into a string
is an unmarshalling error. -/
def unmarshalRegion (sub : ViperSub) (env : Env) : Except String String :=
  match env "AWS_REGION" with
  | some r => if len r == 0 then
      (match sub.region with
       | .unset => .ok ""
       | .str s => .ok s
       | .undecodable why => .error why)
    else .ok r
  | none =>
      match sub.region with
      | .unset => .ok ""
      | .str s => .ok s
      | .undecodable why => .error why

/-- Source `newAwsClientConfig`: unmarshal the `aws` section with `region` bound to
`AWS_REGION`; an unmarshalling error is fatal. -/
def newAwsClientConfig (sub : ViperSub) (env : Env) : Outcome awsClientConfig :=
  match unmarshalRegion sub env with
  | .error _ => .fatal "Error while unmarshalling configuration %s"
  | .ok r => .returned { Region := r }

/-! ## Client construction -/

/-- Source `NewClient(ctx, vc, account)`. The account query `q`, the configuration section
`sub`, the environment `env` and the SDK loader `sdk` are the surroundings the Go function
reads; `vc = none` is a nil secret client. -/
def NewClient (q : AccountQuery) (sub : ViperSub) (env : Env) (sdk : SdkLoader)
    (vc : Option VaultClient) (account : String) : Run awsClient :=
  if len account == 0 then
    ⟨.fatal "No AWS account name provided", []⟩
  else
    match q account with
    | .error _ => ⟨.fatal "Error getting AWS account info", [.getAccounts account]⟩
    | .ok result =>
      let accounts := result.GetAwsaccounts_v1
      if accounts.length != 1 then
        ⟨.fatal "Expected one AWS with name", [.getAccounts account]⟩
      else
        match accounts[0]? with
        | none => ⟨.panic "index out of range", [.getAccounts account]⟩
        | some acc =>
          let path := acc.AutomationToken.GetPath
          match vc with
          | none => ⟨.panic "nil pointer dereference", [.getAccounts account]⟩
          | some rs =>
            let calls := [Event.getAccounts account, Event.ReadSecret path]
            match rs path with
            | .error _ => ⟨.fatal "Error reading automation token", calls⟩
            | .ok secret =>
              match newAwsClientConfig sub env with
              | .fatal m => ⟨.fatal m, calls⟩
              | .panic m => ⟨.panic m, calls⟩
              | .returned awsCfg =>
                match assertString (secret.Data "aws_access_key_id") with
                | none => ⟨.panic "interface conversion", calls⟩
                | some aws_access_key_id =>
                  match assertString (secret.Data "aws_secret_access_key") with
                  | none => ⟨.panic "interface conversion", calls⟩
                  | some aws_secret_access_key =>
                    match LoadDefaultConfig sdk env
                        ⟨awsCfg.Region, ⟨aws_access_key_id, aws_secret_access_key, ""⟩⟩ with
                    | .error _ => ⟨.fatal "Error creating AWS configuration", calls⟩
                    | .ok cfg => ⟨.returned { s3Client := cfg }, calls⟩

/-! ## Credential helpers exercised by the tests -/

/-- The error taxonomy of credential resolution. -/
inductive CredError where
  | ConfigurationError
  | LookupError (msg : String)
  | AmbiguousResultError
  | SecretFormatError
  | CredentialConfigError (msg : String)
  | SecretStoreError (msg : String)
  deriving DecidableEq, Repr

/-- Modelled from the spec: `getCredentialsFromEnv` is declared in a file that is not part
of the sources. It reads `AWS_ACCESS_KEY_ID` and `AWS_SECRET_ACCESS_KEY`, returns absent if
either is unset or empty, and a populated Credentials value otherwise. -/
def getCredentialsFromEnv (env : Env) : Option Credentials :=
  match env "AWS_ACCESS_KEY_ID", env "AWS_SECRET_ACCESS_KEY" with
  | some a, some s =>
    if len a == 0 || len s == 0 then none
    else some { AccessKeyID := a, SecretAccessKey := s }
  | _, _ => none

/-- Modelled from the spec: `guessAccountName` is declared in a file that is not part of
the sources. An absent `APP_INTERFACE_STATE_BUCKET_ACCOUNT` yields the empty string, a
present one yields its exact value. -/
def guessAccountName (env : Env) : String :=
  match env "APP_INTERFACE_STATE_BUCKET_ACCOUNT" with
  | some v => v
  | none => ""

/-- Modelled from the spec: `getCredentialsFromVault` is declared in a file that is not
part of the sources. It requires the query result to hold exactly one account and fails
with `AmbiguousResultError` otherwise; it reads the secret at the account's
automation-token path via the secret client (propagating the client's error); it extracts
the two named fields and fails with `SecretFormatError` if a field is missing or not a
string; it returns the assembled Credentials. The result is Go's pair of a nilable
Credentials pointer and a nilable error; a nil client (`none`) is only called, and then
panics, when there is a secret to read. -/
def getCredentialsFromVault (vc : Option VaultClient) (accounts : getAccountsResponse) :
    Run (Option Credentials × Option CredError) :=
  if accounts.GetAwsaccounts_v1.length != 1 then
    ⟨.returned (none, some .AmbiguousResultError), []⟩
  else
    match accounts.GetAwsaccounts_v1[0]? with
    | none => ⟨.returned (none, some .AmbiguousResultError), []⟩
    | some acc =>
      let path := acc.AutomationToken.GetPath
      match vc with
      | none => ⟨.panic "nil pointer dereference", []⟩
      | some rs =>
        match rs path with
        | .error e => ⟨.returned (none, some (.SecretStoreError e)), [.ReadSecret path]⟩
        | .ok secret =>
          match assertString (secret.Data "aws_access_key_id"),
                assertString (secret.Data "aws_secret_access_key") with
          | some a, some s =>
            ⟨.returned (some { AccessKeyID := a, SecretAccessKey := s }, none),
              [.ReadSecret path]⟩
          | _, _ => ⟨.returned (none, some .SecretFormatError), [.ReadSecret path]⟩

/-! ## Concrete surroundings used in the examples -/

/-- An environment given by a list of bindings; the first binding of a name wins. -/
def envOf (bs : List (String × String)) : Env := fun k => bs.lookup k

/-- A secret given by a list of entries. -/
def secretOf (kvs : List (String × GoValue)) : Secret := { Data := fun k => kvs.lookup k }

/-- An account record whose automation token lives at `path`. -/
def accountAt (path : String) : AWSAccount_v1 :=
  { Name := "", ResourcesDefaultRegion := "", AutomationToken :=
      { Path := path, Field := "", Version := none, Format := none } }

/-- An account query that answers every name with the same records. -/
def queryReturning (accs : List AWSAccount_v1) : AccountQuery := fun _ => .ok ⟨accs⟩

/-- The secret store of the test: the payload `foo`/`bar` at path `token`, an error
elsewhere. -/
def vaultMock : VaultClient := fun p =>
  if p = "token" then
    .ok (secretOf [("aws_access_key_id", .str "foo"), ("aws_secret_access_key", .str "bar")])
  else .error "not found"

/-- A secret client that fails on every call. -/
def vaultDown : VaultClient := fun _ => .error "unreachable"

/-- An SDK loader that accepts every option set in every environment. -/
def sdkOk : SdkLoader := fun _ _ => none

/-! ## Auxiliary lemmas -/

theorem utf8ByteSize_go_eq_zero (cs : List Char) :
    String.utf8ByteSize.go cs = 0 → cs = [] := by
  cases cs with
  | nil => intro _; rfl
  | cons c cs =>
    intro h
    simp only [String.utf8ByteSize.go] at h
    have := Char.utf8Size_pos c
    omega

/-- A string has byte length zero exactly when it is the empty string. -/
theorem len_eq_zero_iff (s : String) : len s = 0 ↔ s = "" := by
  constructor
  · intro h
    cases s with
    | mk cs =>
      have : cs = [] := utf8ByteSize_go_eq_zero cs h
      subst this
      rfl
  · intro h
    subst h
    rfl

theorem length_one_getElem_zero {α : Type} (l : List α) (a : α)
    (h1 : l.length = 1) (h2 : l[0]? = some a) : l = [a] := by
  match l, h1, h2 with
  | [b], _, h2 => simp at h2; rw [h2]

/-- The type assertion fails exactly on a missing key or a non-string value. -/
theorem assertString_eq_none_iff (v : Option GoValue) :
    assertString v = none ↔ ∀ s, v ≠ some (.str s) := by
  cases v with
  | none => simp [assertString]
  | some g =>
    cases g with
    | str s => simp [assertString]
    | other t => simp [assertString]

/-- Everything that holds when `NewClient` returns a client. -/
theorem NewClient_returned_inv {q : AccountQuery} {sub : ViperSub} {env : Env}
    {sdk : SdkLoader} {vc : Option VaultClient} {account : String} {c : awsClient}
    (h : (NewClient q sub env sdk vc account).outcome = .returned c) :
    len account ≠ 0 ∧ ∃ acc rs secret region a s,
      q account = .ok ⟨[acc]⟩ ∧ vc = some rs ∧ rs acc.AutomationToken.Path = .ok secret ∧
      unmarshalRegion sub env = .ok region ∧
      secret.Data "aws_access_key_id" = some (.str a) ∧
      secret.Data "aws_secret_access_key" = some (.str s) ∧
      sdk env ⟨region, ⟨a, s, ""⟩⟩ = none ∧
      c = ⟨⟨region, ⟨a, s, ""⟩⟩⟩ ∧
      (NewClient q sub env sdk vc account).calls =
        [.getAccounts account, .ReadSecret acc.AutomationToken.Path] := by
  unfold NewClient at h ⊢
  by_cases h0 : len account = 0
  · simp [h0] at h
  refine ⟨h0, ?_⟩
  simp only [beq_iff_eq, h0, if_false] at h ⊢
  cases hq : q account with
  | error e => simp [hq] at h
  | ok result =>
    obtain ⟨accs⟩ := result
    simp only [hq, getAccountsResponse.GetAwsaccounts_v1] at h ⊢
    by_cases hl : accs.length = 1
    · simp only [bne_iff_ne, ne_eq, hl, not_true_eq_false, if_false] at h ⊢
      cases h0' : accs[0]? with
      | none => simp [h0'] at h
      | some acc =>
        have hacc := length_one_getElem_zero accs acc hl h0'
        simp only [h0'] at h ⊢
        cases vc with
        | none => simp at h
        | some rs =>
          simp only [VaultSecret_v1.GetPath] at h ⊢
          cases hr : rs acc.AutomationToken.Path with
          | error e => simp [hr] at h
          | ok secret =>
            simp only [hr, newAwsClientConfig] at h ⊢
            cases hu : unmarshalRegion sub env with
            | error e => simp [hu] at h
            | ok region =>
              simp only [hu] at h ⊢
              cases ha : secret.Data "aws_access_key_id" with
              | none => simp [ha, assertString] at h
              | some va =>
                cases va with
                | other t => simp [ha, assertString] at h
                | str a =>
                  cases hs : secret.Data "aws_secret_access_key" with
                  | none => simp [ha, hs, assertString] at h
                  | some vs =>
                    cases vs with
                    | other t => simp [ha, hs, assertString] at h
                    | str s =>
                      simp only [ha, hs, assertString, LoadDefaultConfig] at h ⊢
                      cases hsdk : sdk env ⟨region, ⟨a, s, ""⟩⟩ with
                      | some e => simp [hsdk] at h
                      | none =>
                        simp only [hsdk, Outcome.returned.injEq] at h
                        exact ⟨acc, rs, secret, region, a, s, by rw [hacc], rfl, hr, rfl,
                          ha, hs, hsdk, h.symm, rfl⟩
    · simp [hl] at h

/-- With a non-empty account name the first remote call is the account query for that
name, it is the only account query, and the empty-name failure does not occur. -/
theorem NewClient_nonempty_account (q : AccountQuery) (sub : ViperSub) (env : Env)
    (sdk : SdkLoader) (vc : Option VaultClient) (account : String) (h0 : len account ≠ 0) :
    queryCalls (NewClient q sub env sdk vc account).calls = [account] ∧
    (NewClient q sub env sdk vc account).calls.head? = some (.getAccounts account) ∧
    (NewClient q sub env sdk vc account).outcome ≠ .fatal "No AWS account name provided" := by
  unfold NewClient newAwsClientConfig
  simp only [beq_iff_eq, h0, if_false]
  cases hu : unmarshalRegion sub env
  all_goals
    simp only []
    repeat' split
    all_goals simp_all [queryCalls]

/-- With a query answer that does not hold exactly one record, and a non-empty name,
`NewClient` stops right after the query. -/
theorem NewClient_wrong_cardinality (q : AccountQuery) (sub : ViperSub) (env : Env)
    (sdk : SdkLoader) (vc : Option VaultClient) (account : String)
    (result : getAccountsResponse) (h0 : len account ≠ 0) (hq : q account = .ok result)
    (hn : result.GetAwsaccounts_v1.length ≠ 1) :
    NewClient q sub env sdk vc account =
      ⟨.fatal "Expected one AWS with name", [.getAccounts account]⟩ := by
  unfold NewClient
  simp [h0, hq, hn]

/-! ## Environment credentials and `NewClient` (C1) -/

/-- Claim C1 fails on the code. In an environment where `AWS_ACCESS_KEY_ID` and
`AWS_SECRET_ACCESS_KEY` are both set to non-empty values, `NewClient` still performs
the account query and a `ReadSecret` call, and the credentials handed to the static
credential provider are those of the secret (`foo`, `bar`), not the environment strings;
with a secret client that fails on every call, construction fails. -/
theorem NewClient_env_credentials_still_remote :
    envOf [("AWS_ACCESS_KEY_ID", "AKIAENV"), ("AWS_SECRET_ACCESS_KEY", "envsecret")]
        "AWS_ACCESS_KEY_ID" = some "AKIAENV" ∧
    envOf [("AWS_ACCESS_KEY_ID", "AKIAENV"), ("AWS_SECRET_ACCESS_KEY", "envsecret")]
        "AWS_SECRET_ACCESS_KEY" = some "envsecret" ∧
    NewClient (queryReturning [accountAt "token"]) ⟨.str "us-east-1"⟩
        (envOf [("AWS_ACCESS_KEY_ID", "AKIAENV"), ("AWS_SECRET_ACCESS_KEY", "envsecret")])
        sdkOk (some vaultMock) "acc" =
      ⟨.returned ⟨⟨"us-east-1", ⟨"foo", "bar", ""⟩⟩⟩,
        [.getAccounts "acc", .ReadSecret "token"]⟩ ∧
    NewClient (queryReturning [accountAt "token"]) ⟨.str "us-east-1"⟩
        (envOf [("AWS_ACCESS_KEY_ID", "AKIAENV"), ("AWS_SECRET_ACCESS_KEY", "envsecret")])
        sdkOk (some vaultDown) "acc" =
      ⟨.fatal "Error reading automation token",
        [.getAccounts "acc", .ReadSecret "token"]⟩ := by
  decide

/-- Claim C1, amended. `NewClient` has no environment short-circuit: for every
environment (also one in which `AWS_ACCESS_KEY_ID` and `AWS_SECRET_ACCESS_KEY` are both
set to non-empty values), every secret client and every account-query service, a run with
a non-empty account name performs exactly one account query, for that name, as its first
remote call; and whenever a client is returned, exactly one `ReadSecret` call was made, at
the automation-token path of the single account, and the credentials handed to the static
credential provider are the two strings of that secret's payload. -/
theorem NewClient_env_credentials_not_consulted (q : AccountQuery) (sub : ViperSub)
    (env : Env) (sdk : SdkLoader) (vc : Option VaultClient) (account : String) :
    (len account ≠ 0 →
      queryCalls (NewClient q sub env sdk vc account).calls = [account] ∧
      (NewClient q sub env sdk vc account).calls.head? = some (.getAccounts account)) ∧
    (∀ c, (NewClient q sub env sdk vc account).outcome = .returned c →
      ∃ acc rs secret a s,
        q account = .ok ⟨[acc]⟩ ∧ vc = some rs ∧
        rs acc.AutomationToken.Path = .ok secret ∧
        secret.Data "aws_access_key_id" = some (.str a) ∧
        secret.Data "aws_secret_access_key" = some (.str s) ∧
        (NewClient q sub env sdk vc account).calls =
          [.getAccounts account, .ReadSecret acc.AutomationToken.Path] ∧
        c.s3Client.Credentials = ⟨a, s, ""⟩) := by
  refine ⟨?_, ?_⟩
  · intro h0
    have h := NewClient_nonempty_account q sub env sdk vc account h0
    exact ⟨h.1, h.2.1⟩
  · intro c hc
    obtain ⟨_, acc, rs, secret, region, a, s, hq, hvc, hr, _, ha, hs, _, hcl, hcalls⟩ :=
      NewClient_returned_inv hc
    exact ⟨acc, rs, secret, a, s, hq, hvc, hr, ha, hs, hcalls, by rw [hcl]⟩

/-- The amended C1 in an environment where both credential variables are set: the run for
the account `acc` makes the account query for `acc`, and it is its first remote call. -/
theorem NewClient_env_credentials_not_consulted_witness :
    queryCalls (NewClient (queryReturning [accountAt "token"]) ⟨.str "us-east-1"⟩
        (envOf [("AWS_ACCESS_KEY_ID", "AKIAENV"), ("AWS_SECRET_ACCESS_KEY", "envsecret")])
        sdkOk (some vaultMock) "acc").calls = ["acc"] ∧
    (NewClient (queryReturning [accountAt "token"]) ⟨.str "us-east-1"⟩
        (envOf [("AWS_ACCESS_KEY_ID", "AKIAENV"), ("AWS_SECRET_ACCESS_KEY", "envsecret")])
        sdkOk (some vaultMock) "acc").calls.head? = some (.getAccounts "acc") :=
  (NewClient_env_credentials_not_consulted (queryReturning [accountAt "token"])
    ⟨.str "us-east-1"⟩
    (envOf [("AWS_ACCESS_KEY_ID", "AKIAENV"), ("AWS_SECRET_ACCESS_KEY", "envsecret")])
    sdkOk (some vaultMock) "acc").1 (by decide)

/-! ## Malformed secret payloads (C2) -/

/-- Claim C2 fails on the code. For a payload that lacks `aws_secret_access_key`,
`NewClient` does not end with an error value: the unchecked coercion panics. -/
theorem NewClient_missing_secret_key_panics :
    NewClient (queryReturning [accountAt "token"]) ⟨.str "us-east-1"⟩ (envOf []) sdkOk
        (some (fun _ => .ok (secretOf [("aws_access_key_id", .str "foo")]))) "acc" =
      ⟨.panic "interface conversion", [.getAccounts "acc", .ReadSecret "token"]⟩ := by
  decide

/-- Claim C2, amended. For every secret payload returned by `ReadSecret` for the single
resolved account in which `aws_access_key_id` or `aws_secret_access_key` is missing or
holds a non-string value, `NewClient` does not return: no client is constructed, so no
credentials, in part or in whole, reach the static credential provider, and no error value
is returned to the caller. The run ends at the unchecked coercion, or at the fatal
configuration error that precedes it when the configuration cannot be unmarshalled. -/
theorem NewClient_malformed_secret_no_client (q : AccountQuery) (sub : ViperSub) (env : Env)
    (sdk : SdkLoader) (rs : VaultClient) (account : String) (acc : AWSAccount_v1)
    (secret : Secret) (h0 : len account ≠ 0) (hq : q account = .ok ⟨[acc]⟩)
    (hr : rs acc.AutomationToken.GetPath = .ok secret)
    (hbad : (∀ a, secret.Data "aws_access_key_id" ≠ some (.str a)) ∨
      (∀ s, secret.Data "aws_secret_access_key" ≠ some (.str s))) :
    (∀ c, (NewClient q sub env sdk (some rs) account).outcome ≠ .returned c) ∧
    (NewClient q sub env sdk (some rs) account).calls =
      [.getAccounts account, .ReadSecret acc.AutomationToken.GetPath] ∧
    (∀ r, unmarshalRegion sub env = .ok r →
      (NewClient q sub env sdk (some rs) account).outcome = .panic "interface conversion") ∧
    (∀ e, unmarshalRegion sub env = .error e →
      (NewClient q sub env sdk (some rs) account).outcome =
        .fatal "Error while unmarshalling configuration %s") := by
  have hbad' : assertString (secret.Data "aws_access_key_id") = none ∨
      assertString (secret.Data "aws_secret_access_key") = none := by
    rcases hbad with h | h
    · exact Or.inl ((assertString_eq_none_iff _).2 h)
    · exact Or.inr ((assertString_eq_none_iff _).2 h)
  have key : ∀ u, unmarshalRegion sub env = u →
      NewClient q sub env sdk (some rs) account =
        ⟨(match u with
          | .ok _ => .panic "interface conversion"
          | .error _ => .fatal "Error while unmarshalling configuration %s"),
          [.getAccounts account, .ReadSecret acc.AutomationToken.GetPath]⟩ := by
    intro u hu
    unfold NewClient newAwsClientConfig
    simp only [beq_iff_eq, h0, if_false, hq, getAccountsResponse.GetAwsaccounts_v1,
      List.length_singleton, bne_self_eq_false, Bool.false_eq_true,
      List.getElem?_cons_zero, hr, hu]
    cases u with
    | error e => rfl
    | ok r =>
      rcases hbad' with h | h
      · simp [h]
      · cases h1 : assertString (secret.Data "aws_access_key_id") with
        | none => simp
        | some a => simp [h]
  refine ⟨?_, ?_, ?_, ?_⟩
  · intro c hc
    rw [key _ rfl] at hc
    cases hu : unmarshalRegion sub env <;> simp [hu] at hc
  · rw [key _ rfl]
  · intro r hu
    rw [key _ hu]
  · intro e hu
    rw [key _ hu]

/-- The amended C2 at the payload that lacks `aws_secret_access_key`. -/
theorem NewClient_malformed_secret_no_client_witness :
    (NewClient (queryReturning [accountAt "token"]) ⟨.str "us-east-1"⟩ (envOf []) sdkOk
        (some (fun _ => .ok (secretOf [("aws_access_key_id", .str "foo")])))
        "acc").outcome = .panic "interface conversion" ∧
    (NewClient (queryReturning [accountAt "token"]) ⟨.str "us-east-1"⟩ (envOf []) sdkOk
        (some (fun _ => .ok (secretOf [("aws_access_key_id", .str "foo")])))
        "acc").calls = [.getAccounts "acc", .ReadSecret "token"] :=
  have h := NewClient_malformed_secret_no_client (queryReturning [accountAt "token"])
    ⟨.str "us-east-1"⟩ (envOf []) sdkOk
    (fun _ => .ok (secretOf [("aws_access_key_id", .str "foo")])) "acc" (accountAt "token")
    (secretOf [("aws_access_key_id", .str "foo")]) (by decide) rfl rfl
    (Or.inr (fun s => by simp [secretOf, List.lookup]))
  ⟨h.2.2.1 "us-east-1" rfl, h.2.1⟩

/-! ## Credentials from the secret store (C3, C4) -/

/-- Claim C3. For every account-query result whose number of account records is not
exactly 1 and for every secret client, a nil one included, `getCredentialsFromVault`
returns a nil Credentials value together with a non-nil error, `AmbiguousResultError`,
and calls nothing. -/
theorem getCredentialsFromVault_not_one_account (vc : Option VaultClient)
    (accounts : getAccountsResponse) (h : accounts.GetAwsaccounts_v1.length ≠ 1) :
    getCredentialsFromVault vc accounts =
      ⟨.returned (none, some .AmbiguousResultError), []⟩ := by
  unfold getCredentialsFromVault
  simp [h]

/-- Claim C3 on the input of the test: two empty account records and a nil client. -/
theorem getCredentialsFromVault_not_one_account_witness :
    getCredentialsFromVault none ⟨[accountAt "", accountAt ""]⟩ =
      ⟨.returned (none, some .AmbiguousResultError), []⟩ :=
  getCredentialsFromVault_not_one_account none ⟨[accountAt "", accountAt ""]⟩ (by decide)

/-- Claim C4. For every account-query result holding exactly one account, with
automation-token path `p`, and every secret client whose `ReadSecret(p)` succeeds with a
payload mapping `aws_access_key_id` to the string `a` and `aws_secret_access_key` to the
string `s`, `getCredentialsFromVault` returns a nil error and the Credentials
`(a, s)`, and the one secret it read is the one at path `p`. -/
theorem getCredentialsFromVault_one_account (rs : VaultClient) (acc : AWSAccount_v1)
    (secret : Secret) (a s : String)
    (hr : rs acc.AutomationToken.Path = .ok secret)
    (ha : secret.Data "aws_access_key_id" = some (.str a))
    (hs : secret.Data "aws_secret_access_key" = some (.str s)) :
    getCredentialsFromVault (some rs) ⟨[acc]⟩ =
      ⟨.returned (some { AccessKeyID := a, SecretAccessKey := s }, none),
        [.ReadSecret acc.AutomationToken.Path]⟩ := by
  unfold getCredentialsFromVault
  simp [getAccountsResponse.GetAwsaccounts_v1, VaultSecret_v1.GetPath, hr, ha, hs,
    assertString]

/-- Claim C4 on the input of the test: path `token`, payload `foo` / `bar`. -/
theorem getCredentialsFromVault_one_account_witness :
    getCredentialsFromVault (some vaultMock) ⟨[accountAt "token"]⟩ =
      ⟨.returned (some { AccessKeyID := "foo", SecretAccessKey := "bar" }, none),
        [.ReadSecret "token"]⟩ :=
  getCredentialsFromVault_one_account vaultMock (accountAt "token")
    (secretOf [("aws_access_key_id", .str "foo"), ("aws_secret_access_key", .str "bar")])
    "foo" "bar" rfl rfl rfl

/-! ## Environment readers (C5, C6) -/

/-- Claim C5. For every environment, `getCredentialsFromEnv` returns a Credentials value
holding the exact strings of `AWS_ACCESS_KEY_ID` and `AWS_SECRET_ACCESS_KEY` when both are
set to non-empty values, returns absent when either variable is unset or empty, and never
returns a Credentials value that is populated in part only. -/
theorem getCredentialsFromEnv_spec (env : Env) :
    (∀ a s, env "AWS_ACCESS_KEY_ID" = some a → env "AWS_SECRET_ACCESS_KEY" = some s →
      a ≠ "" → s ≠ "" →
      getCredentialsFromEnv env = some { AccessKeyID := a, SecretAccessKey := s }) ∧
    ((env "AWS_ACCESS_KEY_ID" = none ∨ env "AWS_ACCESS_KEY_ID" = some "" ∨
        env "AWS_SECRET_ACCESS_KEY" = none ∨ env "AWS_SECRET_ACCESS_KEY" = some "") →
      getCredentialsFromEnv env = none) ∧
    (∀ c, getCredentialsFromEnv env = some c →
      env "AWS_ACCESS_KEY_ID" = some c.AccessKeyID ∧
      env "AWS_SECRET_ACCESS_KEY" = some c.SecretAccessKey ∧
      c.AccessKeyID ≠ "" ∧ c.SecretAccessKey ≠ "") := by
  unfold getCredentialsFromEnv
  refine ⟨?_, ?_, ?_⟩
  · intro a s ha hs hane hsne
    have h1 : len a ≠ 0 := fun h => hane ((len_eq_zero_iff a).1 h)
    have h2 : len s ≠ 0 := fun h => hsne ((len_eq_zero_iff s).1 h)
    simp [ha, hs, h1, h2]
  · intro h
    cases hA : env "AWS_ACCESS_KEY_ID" with
    | none => simp
    | some a =>
      cases hS : env "AWS_SECRET_ACCESS_KEY" with
      | none => simp
      | some s =>
        have : len a = 0 ∨ len s = 0 := by
          rcases h with h | h | h | h
          · rw [hA] at h; cases h
          · rw [hA] at h; cases h; exact Or.inl rfl
          · rw [hS] at h; cases h
          · rw [hS] at h; cases h; exact Or.inr rfl
        rcases this with h | h <;> simp [h]
  · intro c hc
    cases hA : env "AWS_ACCESS_KEY_ID" with
    | none => simp [hA] at hc
    | some a =>
      cases hS : env "AWS_SECRET_ACCESS_KEY" with
      | none => simp [hA, hS] at hc
      | some s =>
        simp only [hA, hS] at hc
        by_cases hz : (len a == 0 || len s == 0) = true
        · simp [hz] at hc
        · rw [if_neg hz, Option.some.injEq] at hc
          subst hc
          simp only [Bool.or_eq_true, beq_iff_eq, not_or] at hz
          exact ⟨rfl, rfl, fun h => hz.1 ((len_eq_zero_iff a).2 h),
            fun h => hz.2 ((len_eq_zero_iff s).2 h)⟩

/-- Claim C5 on the three environments of the test: nothing set, only
`AWS_ACCESS_KEY_ID` set, both set. -/
theorem getCredentialsFromEnv_spec_witness :
    getCredentialsFromEnv (envOf []) = none ∧
    getCredentialsFromEnv (envOf [("AWS_ACCESS_KEY_ID", "foo")]) = none ∧
    getCredentialsFromEnv
        (envOf [("AWS_ACCESS_KEY_ID", "foo"), ("AWS_SECRET_ACCESS_KEY", "bar")]) =
      some { AccessKeyID := "foo", SecretAccessKey := "bar" } :=
  ⟨(getCredentialsFromEnv_spec (envOf [])).2.1 (Or.inl rfl),
   (getCredentialsFromEnv_spec (envOf [("AWS_ACCESS_KEY_ID", "foo")])).2.1
     (Or.inr (Or.inr (Or.inl rfl))),
   (getCredentialsFromEnv_spec
     (envOf [("AWS_ACCESS_KEY_ID", "foo"), ("AWS_SECRET_ACCESS_KEY", "bar")])).1
     "foo" "bar" rfl rfl (by decide) (by decide)⟩

/-- Claim C6. For every environment, `guessAccountName` returns the empty string when
`APP_INTERFACE_STATE_BUCKET_ACCOUNT` is absent, and exactly the value of that variable,
unmodified, when it is present. -/
theorem guessAccountName_spec (env : Env) :
    (env "APP_INTERFACE_STATE_BUCKET_ACCOUNT" = none → guessAccountName env = "") ∧
    (∀ v, env "APP_INTERFACE_STATE_BUCKET_ACCOUNT" = some v → guessAccountName env = v) := by
  unfold guessAccountName
  constructor
  · intro h
    rw [h]
  · intro v h
    rw [h]

/-- Claim C6 on the two environments of the test. -/
theorem guessAccountName_spec_witness :
    guessAccountName (envOf []) = "" ∧
    guessAccountName (envOf [("APP_INTERFACE_STATE_BUCKET_ACCOUNT", "foo")]) = "foo" :=
  ⟨(guessAccountName_spec (envOf [])).1 rfl,
   (guessAccountName_spec (envOf [("APP_INTERFACE_STATE_BUCKET_ACCOUNT", "foo")])).2
     "foo" rfl⟩

/-! ## Account name (C7, C10) -/

/-- Claim C7 fails on the code. With no environment credentials, an empty supplied
account name and `APP_INTERFACE_STATE_BUCKET_ACCOUNT` set to `foo`, `NewClient` does not
query the account `foo`: it fails for want of an account name and makes no remote call. -/
theorem NewClient_ignores_guessed_account_name :
    guessAccountName (envOf [("APP_INTERFACE_STATE_BUCKET_ACCOUNT", "foo")]) = "foo" ∧
    getCredentialsFromEnv (envOf [("APP_INTERFACE_STATE_BUCKET_ACCOUNT", "foo")]) = none ∧
    NewClient (queryReturning [accountAt "token"]) ⟨.str "us-east-1"⟩
        (envOf [("APP_INTERFACE_STATE_BUCKET_ACCOUNT", "foo")]) sdkOk (some vaultMock) "" =
      ⟨.fatal "No AWS account name provided", []⟩ := by
  decide

/-- Claim C7, amended. `NewClient` has no account-name fallback. Whenever the caller
supplies an empty account name, construction fails with the configuration error
`No AWS account name provided` and no remote call, whatever the environment (so whatever
the value of `APP_INTERFACE_STATE_BUCKET_ACCOUNT`); whenever the supplied name is not
empty, the one account query that is made is for exactly the supplied name, and that
configuration error does not occur. -/
theorem NewClient_no_account_name_fallback (q : AccountQuery) (sub : ViperSub) (env : Env)
    (sdk : SdkLoader) (vc : Option VaultClient) (account : String) :
    (account = "" →
      NewClient q sub env sdk vc account = ⟨.fatal "No AWS account name provided", []⟩) ∧
    (account ≠ "" →
      queryCalls (NewClient q sub env sdk vc account).calls = [account] ∧
      (NewClient q sub env sdk vc account).outcome ≠
        .fatal "No AWS account name provided") := by
  constructor
  · intro h
    subst h
    rfl
  · intro h
    have h0 : len account ≠ 0 := fun hz => h ((len_eq_zero_iff account).1 hz)
    have hn := NewClient_nonempty_account q sub env sdk vc account h0
    exact ⟨hn.1, hn.2.2⟩

/-- The amended C7 in the environment where `APP_INTERFACE_STATE_BUCKET_ACCOUNT` is `foo`:
the empty name fails without a remote call, the name `acc` is the one queried. -/
theorem NewClient_no_account_name_fallback_witness :
    NewClient (queryReturning [accountAt "token"]) ⟨.str "us-east-1"⟩
        (envOf [("APP_INTERFACE_STATE_BUCKET_ACCOUNT", "foo")]) sdkOk (some vaultMock) "" =
      ⟨.fatal "No AWS account name provided", []⟩ ∧
    queryCalls (NewClient (queryReturning [accountAt "token"]) ⟨.str "us-east-1"⟩
        (envOf [("APP_INTERFACE_STATE_BUCKET_ACCOUNT", "foo")]) sdkOk (some vaultMock)
        "acc").calls = ["acc"] :=
  ⟨(NewClient_no_account_name_fallback (queryReturning [accountAt "token"])
      ⟨.str "us-east-1"⟩ (envOf [("APP_INTERFACE_STATE_BUCKET_ACCOUNT", "foo")]) sdkOk
      (some vaultMock) "").1 rfl,
   ((NewClient_no_account_name_fallback (queryReturning [accountAt "token"])
      ⟨.str "us-east-1"⟩ (envOf [("APP_INTERFACE_STATE_BUCKET_ACCOUNT", "foo")]) sdkOk
      (some vaultMock) "acc").2 (by decide)).1⟩

/-- Claim C10. For every run of `NewClient` with an empty account name, whatever the
environment, the account-query service and the secret client, construction fails with the
configuration error `No AWS account name provided` before any remote call: no account
query is executed and no `ReadSecret` call is made. -/
theorem NewClient_empty_account_fails_before_remote_calls (q : AccountQuery)
    (sub : ViperSub) (env : Env) (sdk : SdkLoader) (vc : Option VaultClient) :
    (NewClient q sub env sdk vc "").outcome = .fatal "No AWS account name provided" ∧
    (NewClient q sub env sdk vc "").calls = [] ∧
    queryCalls (NewClient q sub env sdk vc "").calls = [] ∧
    secretCalls (NewClient q sub env sdk vc "").calls = [] :=
  ⟨rfl, rfl, rfl, rfl⟩

/-! ## What a returned client was built from (C8) -/

/-- Claim C8 fails on the code. With no region in the configuration and no `AWS_REGION`
in the environment, `NewClient` returns a client, and the region passed to the SDK
configuration is the empty string. -/
theorem NewClient_returns_client_with_empty_region :
    NewClient (queryReturning [accountAt "token"]) ⟨.unset⟩ (envOf []) sdkOk
        (some vaultMock) "acc" =
      ⟨.returned ⟨⟨"", ⟨"foo", "bar", ""⟩⟩⟩,
        [.getAccounts "acc", .ReadSecret "token"]⟩ := by
  decide

/-- Claim C8, amended. For every configuration, environment, account-query result and
secret payload for which `NewClient` returns a client, the region passed to the SDK
configuration is the region loaded from the layered configuration, which is not checked
and may be the empty string, and the access key id and the secret access key are the
string values stored under `aws_access_key_id` and `aws_secret_access_key` in the secret
read at the automation-token path of the single account the query returned; the session
token is empty. -/
theorem NewClient_returned_client_config (q : AccountQuery) (sub : ViperSub) (env : Env)
    (sdk : SdkLoader) (vc : Option VaultClient) (account : String) (c : awsClient)
    (h : (NewClient q sub env sdk vc account).outcome = .returned c) :
    unmarshalRegion sub env = .ok c.s3Client.Region ∧
    c.s3Client.Credentials.SessionToken = "" ∧
    sdk env c.s3Client = none ∧
    ∃ acc rs secret,
      q account = .ok ⟨[acc]⟩ ∧ vc = some rs ∧
      rs acc.AutomationToken.Path = .ok secret ∧
      secret.Data "aws_access_key_id" = some (.str c.s3Client.Credentials.AccessKeyID) ∧
      secret.Data "aws_secret_access_key" =
        some (.str c.s3Client.Credentials.SecretAccessKey) := by
  obtain ⟨_, acc, rs, secret, region, a, s, hq, hvc, hr, hu, ha, hs, hsdk, hcl, _⟩ :=
    NewClient_returned_inv h
  subst hcl
  exact ⟨hu, rfl, hsdk, acc, rs, secret, hq, hvc, hr, ha, hs⟩

/-- The amended C8 at the run of the scenario: region `us-east-1` from the configuration,
credentials `foo` / `bar` from the secret at `token`. -/
theorem NewClient_returned_client_config_witness :
    unmarshalRegion ⟨.str "us-east-1"⟩ (envOf []) = .ok "us-east-1" ∧
    vaultMock "token" = .ok (secretOf
      [("aws_access_key_id", .str "foo"), ("aws_secret_access_key", .str "bar")]) ∧
    sdkOk (envOf []) ⟨"us-east-1", ⟨"foo", "bar", ""⟩⟩ = none :=
  have h := NewClient_returned_client_config (queryReturning [accountAt "token"])
    ⟨.str "us-east-1"⟩ (envOf []) sdkOk (some vaultMock) "acc"
    ⟨⟨"us-east-1", ⟨"foo", "bar", ""⟩⟩⟩ rfl
  ⟨h.1, rfl, h.2.2.1⟩

/-! ## Order of the cardinality check (C9) -/

/-- Claim C9. For every run of `NewClient` in which the account query returns a number
of records other than 1, construction fails and the sequence of calls made on the secret
client is empty: the failure, `Expected one AWS with name` when a name was supplied,
happens before any `ReadSecret` call is attempted. -/
theorem NewClient_wrong_cardinality_no_secret_call (q : AccountQuery) (sub : ViperSub)
    (env : Env) (sdk : SdkLoader) (vc : Option VaultClient) (account : String)
    (result : getAccountsResponse) (hq : q account = .ok result)
    (hn : result.GetAwsaccounts_v1.length ≠ 1) :
    (∃ msg, (NewClient q sub env sdk vc account).outcome = .fatal msg) ∧
    secretCalls (NewClient q sub env sdk vc account).calls = [] ∧
    (account ≠ "" → NewClient q sub env sdk vc account =
      ⟨.fatal "Expected one AWS with name", [.getAccounts account]⟩) := by
  by_cases h0 : len account = 0
  · have he : account = "" := (len_eq_zero_iff account).1 h0
    subst he
    exact ⟨⟨_, rfl⟩, rfl, fun h => absurd rfl h⟩
  · have hw := NewClient_wrong_cardinality q sub env sdk vc account result h0 hq hn
    rw [hw]
    exact ⟨⟨_, rfl⟩, rfl, fun _ => rfl⟩

/-- Claim C9 on the scenario: the query returns two records. -/
theorem NewClient_wrong_cardinality_no_secret_call_witness :
    NewClient (queryReturning [accountAt "token", accountAt "token"]) ⟨.str "us-east-1"⟩
        (envOf []) sdkOk (some vaultMock) "acc" =
      ⟨.fatal "Expected one AWS with name", [.getAccounts "acc"]⟩ :=
  (NewClient_wrong_cardinality_no_secret_call
    (queryReturning [accountAt "token", accountAt "token"]) ⟨.str "us-east-1"⟩ (envOf [])
    sdkOk (some vaultMock) "acc" ⟨[accountAt "token", accountAt "token"]⟩ rfl
    (by decide)).2.2 (by decide)

end Aws
